import Mathlib

/-!
Formal model of the solar site suitability scorer in `streamlit_dashboard.py`:
the function `create_solar_site_suitability_score` (lines 13-64) and the
ranking step of `main` (lines 106-117).

A pandas data frame of region records is modelled as a `List` of records with
one field per column; real-valued columns are modelled as `ℚ` (exact rational
arithmetic in place of IEEE doubles, the standard shallow embedding of float
formulas that are exact on the inputs of interest).  Column-wise pandas
operations are elementwise, so each derived column is a `List.map` over the
batch.  A Python call that can raise is modelled as returning `Except`.
-/

namespace SolarDashboard

/-- One input row of the data frame: the `Region` identifier column and the six
raw metric columns read by `create_solar_site_suitability_score`. -/
structure RegionMetrics where
  Region : String
  Solar_Irradiance_kWh_m2_day : ℚ
  Grid_Access_Percent : ℚ
  Infrastructure_Index : ℚ
  Electricity_Cost_USD_per_kWh : ℚ
  Rural_Pop_Density_per_km2 : ℚ
  Terrain_Ruggedness_Score : ℚ
deriving DecidableEq

/-- One output row of `create_solar_site_suitability_score`: the input row plus
the nine columns the function assigns (two inverses, six normalized features,
and the score). -/
structure ScoredRegion extends RegionMetrics where
  Grid_Access_inverse : ℚ
  Terrain_Ruggedness_inverse : ℚ
  Solar_Irradiance_norm : ℚ
  Infrastructure_Index_norm : ℚ
  Electricity_Cost_norm : ℚ
  Grid_Access_inverse_norm : ℚ
  Rural_Pop_Density_norm : ℚ
  Terrain_Ruggedness_inverse_norm : ℚ
  Solar_Site_Suitability_Score : ℚ
deriving DecidableEq

/-- Python exceptions reachable from the scorer.  `valueError` is the
`ValueError` that sklearn's `MinMaxScaler.fit` raises on an array with 0
samples ("a minimum of 1 is required by MinMaxScaler").  `emptyBatchError`
stands for the `EmptyBatchError` named by the spec's error taxonomy; no class
of that name exists anywhere in the code — the constructor is present only so
that statements about that error can be written down. -/
inductive ScorerError where
  | valueError
  | emptyBatchError
deriving DecidableEq

/-- pandas `Series.min` / sklearn `data_min_`: minimum of a column
(the `[]` case is arbitrary; it is never reached on the `.ok` path). -/
def data_min : List ℚ → ℚ
  | [] => 0
  | x :: xs => xs.foldl min x

/-- pandas `Series.max` / sklearn `data_max_`: maximum of a column, as in
`df_processed["Terrain_Ruggedness_Score"].max()`. -/
def data_max : List ℚ → ℚ
  | [] => 0
  | x :: xs => xs.foldl max x

/-- The value sklearn's `MinMaxScaler` (default feature range `(0, 1)`) assigns
to an entry `v` of the column `xs` it was fit on: `transform` computes
`v * scale_ + min_` with `scale_ = 1 / (data_max_ - data_min_)` and
`min_ = -data_min_ * scale_`, i.e. `(v - data_min_) * scale_`, where
`_handle_zeros_in_scale` replaces a zero range by 1. -/
def minmax_transform (xs : List ℚ) (v : ℚ) : ℚ :=
  (v - data_min xs) *
    (if data_max xs - data_min xs = 0 then 1 else 1 / (data_max xs - data_min xs))

/-- sklearn `MinMaxScaler.fit_transform` on a single column: raises
`ValueError` on 0 samples, otherwise rescales every entry of the column it was
fit on. -/
def fit_transform : List ℚ → Except ScorerError (List ℚ)
  | [] => .error .valueError
  | x :: xs => .ok ((x :: xs).map (minmax_transform (x :: xs)))

/-- Line 18: `df_processed["Grid_Access_inverse"] = 100 - df_processed["Grid_Access_Percent"]`. -/
def Grid_Access_inverse_col (df : List RegionMetrics) : List ℚ :=
  df.map (fun r => 100 - r.Grid_Access_Percent)

/-- Lines 19-22: `df_processed["Terrain_Ruggedness_inverse"] =
df_processed["Terrain_Ruggedness_Score"].max() - df_processed["Terrain_Ruggedness_Score"]`. -/
def Terrain_Ruggedness_inverse_col (df : List RegionMetrics) : List ℚ :=
  df.map (fun r => data_max (df.map (·.Terrain_Ruggedness_Score)) - r.Terrain_Ruggedness_Score)

/-- Lines 44-62: the weighted aggregation of the six normalized columns with
the fixed `weights` dictionary — 0.3 irradiance, 0.2 inverted grid access,
0.15 infrastructure, 0.15 electricity cost (taken as-is, not inverted),
0.1 rural population density, 0.1 inverted terrain ruggedness. -/
def weighted_score (irr grid infra cost pop terrain : ℚ) : ℚ :=
  irr * 0.3 + grid * 0.2 + infra * 0.15 + cost * 0.15 + pop * 0.1 + terrain * 0.1

/-- The row of the output frame corresponding to input row `r` of batch `df`:
pandas assigns each derived column elementwise, so row `r` receives its own
inverses, the `MinMaxScaler` images of its column entries, and the weighted
score of its normalized entries. -/
def scoreRow (df : List RegionMetrics) (r : RegionMetrics) : ScoredRegion :=
  let gi := 100 - r.Grid_Access_Percent
  let ti := data_max (df.map (·.Terrain_Ruggedness_Score)) - r.Terrain_Ruggedness_Score
  let irrN := minmax_transform (df.map (·.Solar_Irradiance_kWh_m2_day)) r.Solar_Irradiance_kWh_m2_day
  let infN := minmax_transform (df.map (·.Infrastructure_Index)) r.Infrastructure_Index
  let costN := minmax_transform (df.map (·.Electricity_Cost_USD_per_kWh)) r.Electricity_Cost_USD_per_kWh
  let gridN := minmax_transform (Grid_Access_inverse_col df) gi
  let popN := minmax_transform (df.map (·.Rural_Pop_Density_per_km2)) r.Rural_Pop_Density_per_km2
  let terN := minmax_transform (Terrain_Ruggedness_inverse_col df) ti
  ⟨r, gi, ti, irrN, infN, costN, gridN, popN, terN,
    weighted_score irrN gridN infN costN popN terN⟩

/-- Lines 13-64, `create_solar_site_suitability_score`: works on a copy of the
input frame (modelled by purity), adds the two inverse columns, the six
normalized columns and the score column, and returns the augmented frame.  On
an empty frame the first `scaler.fit_transform` call (line 25) raises
sklearn's `ValueError`; on a non-empty frame every `fit_transform` succeeds
and the result is the elementwise `scoreRow`. -/
def create_solar_site_suitability_score (df : List RegionMetrics) :
    Except ScorerError (List ScoredRegion) :=
  match df with
  | [] => .error .valueError
  | _ :: _ => .ok (df.map (scoreRow df))

/-- What line 108 guarantees about the list of rows that
`sort_values(by="Solar_Site_Suitability_Score", ascending=False)` returns: the
call passes no `kind=`, so pandas uses its default `kind='quicksort'` (numpy
introsort), which is documented as an *unstable* sort.  The code therefore
promises only that the result is a rearrangement of the scored rows that is
non-increasing in the score column; the relative order of rows with equal
scores is unspecified (it may vary with batch size and library version).
`SortValuesDescOutput rows sorted` says `sorted` is a list the sort is
permitted to return on input `rows`. -/
def SortValuesDescOutput (rows sorted : List ScoredRegion) : Prop :=
  List.Perm sorted rows ∧
    sorted.Pairwise (fun a b =>
      b.Solar_Site_Suitability_Score ≤ a.Solar_Site_Suitability_Score)

/-- The table `ranked_df` as displayed (lines 106-117), applied to whatever
list the sort returned: project to the `Region` and
`Solar_Site_Suitability_Score` columns, `reset_index`, shift the index by 1
and expose it as the `Rank` column — a list of (Rank, Region, Score) triples. -/
def ranked_regions (sorted : List ScoredRegion) : List (ℕ × String × ℚ) :=
  sorted.enum.map
    (fun p => (p.1 + 1, p.2.Region, p.2.Solar_Site_Suitability_Score))

/-- Region A of the spec's three-region scenario (§8). -/
def regionA : RegionMetrics := ⟨"A", 5, 80, 50, 0.10, 20, 30⟩

/-- Region B of the spec's three-region scenario (§8). -/
def regionB : RegionMetrics := ⟨"B", 7, 40, 70, 0.20, 5, 10⟩

/-- Region C of the spec's three-region scenario (§8). -/
def regionC : RegionMetrics := ⟨"C", 6, 60, 60, 0.15, 10, 20⟩

/-- The spec's three-region scenario batch. -/
def batchABC : List RegionMetrics := [regionA, regionB, regionC]

/-- A region with out-of-expected-range metrics: grid access above 100 percent
and a negative electricity cost. -/
def regionD : RegionMetrics := ⟨"D", 4, 150, 30, -0.05, 12, 25⟩

/-- A batch containing an out-of-expected-range region. -/
def batchD : List RegionMetrics := [regionA, regionD]

/-- A region sharing `regionA`'s solar irradiance, for the zero-range batch. -/
def regionE : RegionMetrics := ⟨"E", 5, 10, 1, 0.30, 3, 2⟩

/-- A batch whose `Solar_Irradiance_kWh_m2_day` column has zero range. -/
def batchAE : List RegionMetrics := [regionA, regionE]

/-- A region used in a duplicate-metrics batch (only the identifier differs). -/
def regionF : RegionMetrics := ⟨"F", 5, 80, 50, 0.10, 20, 30⟩

/-- A region with the same six metrics as `regionF` but another identifier;
the spec allows duplicates ("duplicates produce duplicate independent rows"). -/
def regionG : RegionMetrics := ⟨"G", 5, 80, 50, 0.10, 20, 30⟩

/-- A batch whose two rows tie exactly on every feature, hence on the score. -/
def batchFG : List RegionMetrics := [regionF, regionG]

example : (scoreRow batchABC regionC).Rural_Pop_Density_norm = 1/3 := by
  norm_num [scoreRow, minmax_transform, data_min, data_max, weighted_score,
    Grid_Access_inverse_col, Terrain_Ruggedness_inverse_col,
    batchABC, regionA, regionB, regionC, min_def, max_def]

/-- Score of region A in the scenario batch. -/
lemma scoreABC_A : (scoreRow batchABC regionA).Solar_Site_Suitability_Score = 1/10 := by
  norm_num [scoreRow, minmax_transform, data_min, data_max, weighted_score,
    Grid_Access_inverse_col, Terrain_Ruggedness_inverse_col,
    batchABC, regionA, regionB, regionC, min_def, max_def]

/-- Score of region B in the scenario batch. -/
lemma scoreABC_B : (scoreRow batchABC regionB).Solar_Site_Suitability_Score = 9/10 := by
  norm_num [scoreRow, minmax_transform, data_min, data_max, weighted_score,
    Grid_Access_inverse_col, Terrain_Ruggedness_inverse_col,
    batchABC, regionA, regionB, regionC, min_def, max_def]

/-- Score of region C in the scenario batch. -/
lemma scoreABC_C : (scoreRow batchABC regionC).Solar_Site_Suitability_Score = 29/60 := by
  norm_num [scoreRow, minmax_transform, data_min, data_max, weighted_score,
    Grid_Access_inverse_col, Terrain_Ruggedness_inverse_col,
    batchABC, regionA, regionB, regionC, min_def, max_def]

/-- Both rows of the duplicate-metrics batch score 0 (every column has zero
range, so every normalized feature falls back to 0). -/
lemma scoreFG_eq :
    (scoreRow batchFG regionF).Solar_Site_Suitability_Score = 0 ∧
      (scoreRow batchFG regionG).Solar_Site_Suitability_Score = 0 := by
  constructor <;>
    norm_num [scoreRow, minmax_transform, data_min, data_max, weighted_score,
      Grid_Access_inverse_col, Terrain_Ruggedness_inverse_col,
      batchFG, regionF, regionG, min_def, max_def]

example :
    ranked_regions [scoreRow batchABC regionB, scoreRow batchABC regionC,
        scoreRow batchABC regionA] =
      [(1, "B", 9/10), (2, "C", 29/60), (3, "A", 1/10)] := by
  norm_num [ranked_regions, List.enum, List.enumFrom,
    scoreRow, minmax_transform, data_min, data_max, weighted_score,
    Grid_Access_inverse_col, Terrain_Ruggedness_inverse_col,
    batchABC, regionA, regionB, regionC, min_def, max_def]

lemma foldl_min_le_init (xs : List ℚ) (a : ℚ) : xs.foldl min a ≤ a := by
  induction xs generalizing a with
  | nil => simp
  | cons x t ih => exact le_trans (ih (min a x)) (min_le_left a x)

lemma foldl_min_le_mem {xs : List ℚ} {v : ℚ} (a : ℚ) (h : v ∈ xs) : xs.foldl min a ≤ v := by
  induction xs generalizing a with
  | nil => cases h
  | cons x t ih =>
    rcases List.mem_cons.mp h with rfl | hv
    · exact le_trans (foldl_min_le_init t (min a v)) (min_le_right a v)
    · exact ih (min a x) hv

lemma init_le_foldl_max (xs : List ℚ) (a : ℚ) : a ≤ xs.foldl max a := by
  induction xs generalizing a with
  | nil => simp
  | cons x t ih => exact le_trans (le_max_left a x) (ih (max a x))

lemma mem_le_foldl_max {xs : List ℚ} {v : ℚ} (a : ℚ) (h : v ∈ xs) : v ≤ xs.foldl max a := by
  induction xs generalizing a with
  | nil => cases h
  | cons x t ih =>
    rcases List.mem_cons.mp h with rfl | hv
    · exact le_trans (le_max_right a v) (init_le_foldl_max t (max a v))
    · exact ih (max a x) hv

lemma data_min_le_of_mem {xs : List ℚ} {v : ℚ} (h : v ∈ xs) : data_min xs ≤ v := by
  cases xs with
  | nil => cases h
  | cons x t =>
    rcases List.mem_cons.mp h with rfl | hv
    · exact foldl_min_le_init t v
    · exact foldl_min_le_mem x hv

lemma le_data_max_of_mem {xs : List ℚ} {v : ℚ} (h : v ∈ xs) : v ≤ data_max xs := by
  cases xs with
  | nil => cases h
  | cons x t =>
    rcases List.mem_cons.mp h with rfl | hv
    · exact init_le_foldl_max t v
    · exact mem_le_foldl_max x hv

/-- Every entry of a column is mapped into [0, 1] by the min-max rescaling the
column was fit on, whatever the raw values are. -/
lemma minmax_transform_mem_unit {xs : List ℚ} {v : ℚ} (h : v ∈ xs) :
    0 ≤ minmax_transform xs v ∧ minmax_transform xs v ≤ 1 := by
  have h1 := data_min_le_of_mem h
  have h2 := le_data_max_of_mem h
  unfold minmax_transform
  by_cases hr : data_max xs - data_min xs = 0
  · rw [if_pos hr]
    constructor <;> linarith
  · have hpos : 0 < data_max xs - data_min xs := by
      rcases lt_or_eq_of_le (by linarith : (0 : ℚ) ≤ data_max xs - data_min xs) with hlt | heq
      · exact hlt
      · exact absurd heq.symm hr
    rw [if_neg hr, mul_one_div, div_le_one hpos]
    constructor
    · exact div_nonneg (by linarith) (le_of_lt hpos)
    · linarith

/-- Zero-range fallback: a column entry of a constant column rescales to 0. -/
lemma minmax_transform_zero_range {xs : List ℚ} {v : ℚ} (h : v ∈ xs)
    (h0 : data_max xs = data_min xs) : minmax_transform xs v = 0 := by
  have h1 := data_min_le_of_mem h
  have h2 := le_data_max_of_mem h
  have hv : v = data_min xs := le_antisymm (h0 ▸ h2) h1
  simp [minmax_transform, hv]

/-- The weighted sum of six values from [0, 1] with the scorer's weights lies
in [0, 1], since the weights are positive and sum to 1. -/
lemma weighted_score_mem_unit {i g f c p t : ℚ}
    (hi : 0 ≤ i ∧ i ≤ 1) (hg : 0 ≤ g ∧ g ≤ 1) (hf : 0 ≤ f ∧ f ≤ 1)
    (hc : 0 ≤ c ∧ c ≤ 1) (hp : 0 ≤ p ∧ p ≤ 1) (ht : 0 ≤ t ∧ t ≤ 1) :
    0 ≤ weighted_score i g f c p t ∧ weighted_score i g f c p t ≤ 1 := by
  unfold weighted_score
  obtain ⟨hi0, hi1⟩ := hi
  obtain ⟨hg0, hg1⟩ := hg
  obtain ⟨hf0, hf1⟩ := hf
  obtain ⟨hc0, hc1⟩ := hc
  obtain ⟨hp0, hp1⟩ := hp
  obtain ⟨ht0, ht1⟩ := ht
  constructor <;> nlinarith

/-- Any score the scorer assigns to a row of the batch lies in [0, 1]. -/
lemma scoreRow_score_mem_unit {df : List RegionMetrics} {r : RegionMetrics} (h : r ∈ df) :
    0 ≤ (scoreRow df r).Solar_Site_Suitability_Score ∧
      (scoreRow df r).Solar_Site_Suitability_Score ≤ 1 := by
  have hirr := minmax_transform_mem_unit
    (List.mem_map_of_mem (fun q => q.Solar_Irradiance_kWh_m2_day) h)
  have hinf := minmax_transform_mem_unit
    (List.mem_map_of_mem (fun q => q.Infrastructure_Index) h)
  have hcost := minmax_transform_mem_unit
    (List.mem_map_of_mem (fun q => q.Electricity_Cost_USD_per_kWh) h)
  have hgrid := minmax_transform_mem_unit
    (List.mem_map_of_mem (fun q => 100 - q.Grid_Access_Percent) h)
  have hpop := minmax_transform_mem_unit
    (List.mem_map_of_mem (fun q => q.Rural_Pop_Density_per_km2) h)
  have hter := minmax_transform_mem_unit
    (List.mem_map_of_mem
      (fun q => data_max (df.map (·.Terrain_Ruggedness_Score)) - q.Terrain_Ruggedness_Score) h)
  exact weighted_score_mem_unit hirr hgrid hinf hcost hpop hter

/-- The scorer succeeds exactly on non-empty batches, and then the output is
the elementwise `scoreRow`. -/
lemma create_eq_ok_iff {df : List RegionMetrics} {out : List ScoredRegion} :
    create_solar_site_suitability_score df = .ok out ↔
      df ≠ [] ∧ out = df.map (scoreRow df) := by
  cases df with
  | nil => simp [create_solar_site_suitability_score]
  | cons x t => simp [create_solar_site_suitability_score, eq_comm]

/-- Claim C1: for every valid batch (non-empty; the six metrics are total
fields of `RegionMetrics`, so they are always present), the scorer's six fixed
positive weights sum to 1 and every `Solar_Site_Suitability_Score` produced by
`create_solar_site_suitability_score` lies in [0, 1]. -/
theorem claim_C1_score_in_unit_interval (df : List RegionMetrics) (out : List ScoredRegion)
    (h : create_solar_site_suitability_score df = .ok out) :
    (0.3 + 0.2 + 0.15 + 0.15 + 0.1 + 0.1 : ℚ) = 1 ∧
      ∀ row ∈ out, 0 ≤ row.Solar_Site_Suitability_Score ∧
        row.Solar_Site_Suitability_Score ≤ 1 := by
  obtain ⟨-, rfl⟩ := create_eq_ok_iff.mp h
  refine ⟨by norm_num, ?_⟩
  intro row hrow
  obtain ⟨r, hr, rfl⟩ := List.mem_map.mp hrow
  exact scoreRow_score_mem_unit hr

/-- Witness for C1 at the spec's scenario batch. -/
theorem claim_C1_witness :
    0 ≤ (scoreRow batchABC regionB).Solar_Site_Suitability_Score ∧
      (scoreRow batchABC regionB).Solar_Site_Suitability_Score ≤ 1 :=
  (claim_C1_score_in_unit_interval batchABC (batchABC.map (scoreRow batchABC)) rfl).2
    (scoreRow batchABC regionB)
    (List.mem_map_of_mem (scoreRow batchABC) (by simp [batchABC]))

/-- Claim C2 as stated is false at the scenario batch: the normalized rural
population density of region C is exactly 1/3, which is not within 1e-9 of the
listed value 0.333 (the gap is 1/3000). -/
theorem claim_C2_counterexample :
    ¬ |(scoreRow batchABC regionC).Rural_Pop_Density_norm - 0.333| ≤ (1e-9 : ℚ) := by
  have hv : (scoreRow batchABC regionC).Rural_Pop_Density_norm = 1/3 := by
    norm_num [scoreRow, minmax_transform, data_min, data_max, weighted_score,
      Grid_Access_inverse_col, Terrain_Ruggedness_inverse_col,
      batchABC, regionA, regionB, regionC, min_def, max_def]
  rw [hv, show (1/3 - 0.333 : ℚ) = 1/3000 by norm_num,
    abs_of_pos (by norm_num : (0 : ℚ) < 1/3000)]
  norm_num

/-- Claim C2 amended: on the scenario batch the scorer produces exactly the
listed normalized values, except that region C's normalized population density
is exactly 1/3 (of which the spec's 0.333 is a three-decimal truncation), and
the scores are strictly ordered B > C > A. -/
theorem claim_C2_scenario :
    (scoreRow batchABC regionA).Solar_Irradiance_norm = 0
    ∧ (scoreRow batchABC regionB).Solar_Irradiance_norm = 1
    ∧ (scoreRow batchABC regionC).Solar_Irradiance_norm = 1/2
    ∧ (scoreRow batchABC regionA).Grid_Access_inverse_norm = 0
    ∧ (scoreRow batchABC regionB).Grid_Access_inverse_norm = 1
    ∧ (scoreRow batchABC regionC).Grid_Access_inverse_norm = 1/2
    ∧ (scoreRow batchABC regionA).Terrain_Ruggedness_inverse_norm = 0
    ∧ (scoreRow batchABC regionB).Terrain_Ruggedness_inverse_norm = 1
    ∧ (scoreRow batchABC regionC).Terrain_Ruggedness_inverse_norm = 1/2
    ∧ (scoreRow batchABC regionA).Infrastructure_Index_norm = 0
    ∧ (scoreRow batchABC regionB).Infrastructure_Index_norm = 1
    ∧ (scoreRow batchABC regionC).Infrastructure_Index_norm = 1/2
    ∧ (scoreRow batchABC regionA).Electricity_Cost_norm = 0
    ∧ (scoreRow batchABC regionB).Electricity_Cost_norm = 1
    ∧ (scoreRow batchABC regionC).Electricity_Cost_norm = 1/2
    ∧ (scoreRow batchABC regionA).Rural_Pop_Density_norm = 1
    ∧ (scoreRow batchABC regionB).Rural_Pop_Density_norm = 0
    ∧ (scoreRow batchABC regionC).Rural_Pop_Density_norm = 1/3
    ∧ (scoreRow batchABC regionC).Solar_Site_Suitability_Score
        < (scoreRow batchABC regionB).Solar_Site_Suitability_Score
    ∧ (scoreRow batchABC regionA).Solar_Site_Suitability_Score
        < (scoreRow batchABC regionC).Solar_Site_Suitability_Score := by
  norm_num [scoreRow, minmax_transform, data_min, data_max, weighted_score,
    Grid_Access_inverse_col, Terrain_Ruggedness_inverse_col,
    batchABC, regionA, regionB, regionC, min_def, max_def]

/-- Claim C3: the normalized electricity cost enters the weighted aggregation
directly (not inverted) with weight 0.15, so raising it while the other five
normalized features stay fixed strictly raises the score; and the score column
of every row is exactly this weighted sum of the row's six normalized columns. -/
theorem claim_C3_cost_not_inverted (i g f c c' p t : ℚ) (h : c < c') :
    weighted_score i g f c' p t - weighted_score i g f c p t = 0.15 * (c' - c)
    ∧ weighted_score i g f c p t < weighted_score i g f c' p t
    ∧ ∀ (df : List RegionMetrics) (r : RegionMetrics),
        (scoreRow df r).Solar_Site_Suitability_Score =
          weighted_score (scoreRow df r).Solar_Irradiance_norm
            (scoreRow df r).Grid_Access_inverse_norm
            (scoreRow df r).Infrastructure_Index_norm
            (scoreRow df r).Electricity_Cost_norm
            (scoreRow df r).Rural_Pop_Density_norm
            (scoreRow df r).Terrain_Ruggedness_inverse_norm := by
  refine ⟨by unfold weighted_score; ring, by unfold weighted_score; linarith,
    fun df r => rfl⟩

/-- Witness for C3 at a concrete pair of cost values. -/
theorem claim_C3_witness :
    weighted_score 0 0 0 0 0 0 < weighted_score 0 0 0 1 0 0 :=
  (claim_C3_cost_not_inverted 0 0 0 0 1 0 0 (by norm_num)).2.1

/-- Claim C4: the two lower-is-better features are inverted exactly as
`100 - grid_access` (fixed scale, no clamping: a value above 100 yields a
negative inverse) and `batch_max - terrain_ruggedness` (so the worst-terrain
region of the batch gets inverse 0). -/
theorem claim_C4_directional_inversion (df : List RegionMetrics) (r : RegionMetrics)
    (_h : r ∈ df) :
    (scoreRow df r).Grid_Access_inverse = 100 - r.Grid_Access_Percent
    ∧ (scoreRow df r).Terrain_Ruggedness_inverse =
        data_max (df.map (·.Terrain_Ruggedness_Score)) - r.Terrain_Ruggedness_Score
    ∧ (r.Terrain_Ruggedness_Score = data_max (df.map (·.Terrain_Ruggedness_Score)) →
        (scoreRow df r).Terrain_Ruggedness_inverse = 0)
    ∧ (100 < r.Grid_Access_Percent → (scoreRow df r).Grid_Access_inverse < 0) := by
  refine ⟨rfl, rfl, ?_, ?_⟩
  · intro he
    show data_max (df.map (·.Terrain_Ruggedness_Score)) - r.Terrain_Ruggedness_Score = 0
    rw [he, sub_self]
  · intro hg
    show (100 : ℚ) - r.Grid_Access_Percent < 0
    linarith

/-- Witness for C4: region A has the worst terrain of the scenario batch and
gets terrain inverse 0; region D's grid access above 100 yields a negative
grid inverse. -/
theorem claim_C4_witness :
    (scoreRow batchABC regionA).Terrain_Ruggedness_inverse = 0
    ∧ (scoreRow batchD regionD).Grid_Access_inverse < 0 :=
  ⟨(claim_C4_directional_inversion batchABC regionA (by simp [batchABC])).2.2.1
      (by norm_num [batchABC, regionA, regionB, regionC, data_max, max_def]),
   (claim_C4_directional_inversion batchD regionD (by simp [batchD])).2.2.2
      (by norm_num [regionD])⟩

/-- Claim C5: on a non-empty column of zero range (batch max equals batch min)
the normalization neither raises nor produces an undefined value: sklearn's
`_handle_zeros_in_scale` turns the scale into 1 and every entry normalizes to
0; in particular a batch with constant solar irradiance gives every region
normalized irradiance 0. -/
theorem claim_C5_zero_range_fallback (xs : List ℚ) (h1 : xs ≠ [])
    (h2 : data_max xs = data_min xs) :
    fit_transform xs = .ok (xs.map (fun _ => 0))
    ∧ (∀ v ∈ xs, minmax_transform xs v = 0)
    ∧ ∀ (df : List RegionMetrics) (r : RegionMetrics), r ∈ df →
        df.map (·.Solar_Irradiance_kWh_m2_day) = xs →
        (scoreRow df r).Solar_Irradiance_norm = 0 := by
  have hz : ∀ v ∈ xs, minmax_transform xs v = 0 := fun v hv =>
    minmax_transform_zero_range hv h2
  refine ⟨?_, hz, ?_⟩
  · cases xs with
    | nil => exact absurd rfl h1
    | cons x t =>
      exact congrArg Except.ok (List.map_congr_left (fun v hv => hz v hv))
  · intro df r hr hcol
    have hmem : r.Solar_Irradiance_kWh_m2_day ∈ xs :=
      hcol ▸ List.mem_map_of_mem (fun q => q.Solar_Irradiance_kWh_m2_day) hr
    show minmax_transform (df.map (·.Solar_Irradiance_kWh_m2_day))
      r.Solar_Irradiance_kWh_m2_day = 0
    rw [hcol]
    exact hz _ hmem

/-- Witness for C5 on the constant column [5, 5] and the batch realizing it. -/
theorem claim_C5_witness :
    fit_transform [5, 5] = .ok [0, 0]
    ∧ (scoreRow batchAE regionE).Solar_Irradiance_norm = 0 := by
  have h := claim_C5_zero_range_fallback [5, 5] (by simp)
    (by norm_num [data_min, data_max, min_def, max_def])
  exact ⟨h.1, h.2.2 batchAE regionE (by simp [batchAE])
    (by simp [batchAE, regionA, regionE])⟩

/-- Claim C6: on any single-record batch every feature has zero range, every
normalized column falls back to 0, and the region's score is exactly 0,
whatever the raw metric values are. -/
theorem claim_C6_single_region (r : RegionMetrics) :
    create_solar_site_suitability_score [r] = .ok [scoreRow [r] r]
    ∧ (scoreRow [r] r).Solar_Irradiance_norm = 0
    ∧ (scoreRow [r] r).Grid_Access_inverse_norm = 0
    ∧ (scoreRow [r] r).Infrastructure_Index_norm = 0
    ∧ (scoreRow [r] r).Electricity_Cost_norm = 0
    ∧ (scoreRow [r] r).Rural_Pop_Density_norm = 0
    ∧ (scoreRow [r] r).Terrain_Ruggedness_inverse_norm = 0
    ∧ (scoreRow [r] r).Solar_Site_Suitability_Score = 0 := by
  refine ⟨rfl, ?_, ?_, ?_, ?_, ?_, ?_, ?_⟩ <;>
    norm_num [scoreRow, minmax_transform, data_min, data_max, weighted_score,
      Grid_Access_inverse_col, Terrain_Ruggedness_inverse_col]

/-- Claim C8 as stated is false: on the empty batch the scorer raises the
`ValueError` coming out of sklearn's `MinMaxScaler`, not an `EmptyBatchError`
(no class of that name exists in the code). -/
theorem claim_C8_counterexample :
    create_solar_site_suitability_score [] ≠ .error .emptyBatchError := by
  intro hcontra
  injection hcontra with h3
  exact ScorerError.noConfusion h3

/-- Claim C8 amended: on a batch of zero records the scorer fails synchronously
with the `ValueError` raised by the first `MinMaxScaler.fit_transform` call; it
does not return a result. -/
theorem claim_C8_raises_on_empty :
    create_solar_site_suitability_score [] = .error .valueError := rfl

/-- Claim C9's existential part is false: no batch — out-of-range values
included — ever receives a score outside [0, 1], because every feature is
normalized by the batch's own min and max before weighting. -/
theorem claim_C9_counterexample :
    ¬ ∃ (df : List RegionMetrics) (out : List ScoredRegion) (row : ScoredRegion),
        create_solar_site_suitability_score df = .ok out ∧ row ∈ out ∧
          (row.Solar_Site_Suitability_Score < 0 ∨ 1 < row.Solar_Site_Suitability_Score) := by
  rintro ⟨df, out, row, hok, hmem, hbad⟩
  obtain ⟨-, rfl⟩ := create_eq_ok_iff.mp hok
  obtain ⟨r, hr, rfl⟩ := List.mem_map.mp hmem
  obtain ⟨h0, h1⟩ := scoreRow_score_mem_unit hr
  rcases hbad with hb | hb <;> linarith

/-- Claim C9 amended: the scorer performs no range validation — any non-empty
batch, including one with grid access above 100 percent or negative
electricity cost, is scored without error — but the resulting scores still lie
in [0, 1] (batch-relative min-max normalization bounds every feature). -/
theorem claim_C9_no_range_validation (df : List RegionMetrics) (h : df ≠ []) :
    create_solar_site_suitability_score df = .ok (df.map (scoreRow df))
    ∧ ∀ r ∈ df, 0 ≤ (scoreRow df r).Solar_Site_Suitability_Score ∧
        (scoreRow df r).Solar_Site_Suitability_Score ≤ 1 :=
  ⟨create_eq_ok_iff.mpr ⟨h, rfl⟩, fun _ hr => scoreRow_score_mem_unit hr⟩

/-- Witness for the amended C9 at the batch containing region D (grid access
150, electricity cost -0.05). -/
theorem claim_C9_witness :
    create_solar_site_suitability_score batchD = .ok (batchD.map (scoreRow batchD))
    ∧ (0 ≤ (scoreRow batchD regionD).Solar_Site_Suitability_Score ∧
        (scoreRow batchD regionD).Solar_Site_Suitability_Score ≤ 1) :=
  ⟨(claim_C9_no_range_validation batchD (by simp [batchD])).1,
   (claim_C9_no_range_validation batchD (by simp [batchD])).2 regionD (by simp [batchD])⟩

/-- Claim C10: the scorer is pure — it works on a copy, so the input frame is
untouched (purity of the model) — and its output keeps every original row in
the original order with all original column values unchanged: projecting each
output row back to its input columns recovers the input batch exactly. -/
theorem claim_C10_input_rows_preserved (df : List RegionMetrics) (out : List ScoredRegion)
    (h : create_solar_site_suitability_score df = .ok out) :
    out.map (fun row => row.toRegionMetrics) = df := by
  obtain ⟨-, rfl⟩ := create_eq_ok_iff.mp h
  rw [List.map_map]
  have hcomp : ((fun row : ScoredRegion => row.toRegionMetrics) ∘ scoreRow df) =
      fun r => r := rfl
  rw [hcomp]
  exact List.map_id' df

lemma enumFrom_map_fst_add_one {α : Type} (l : List α) (n : ℕ) :
    ((List.enumFrom n l).map fun p => p.1 + 1) = List.range' (n + 1) l.length := by
  induction l generalizing n with
  | nil => rfl
  | cons x t ih => simp [List.enumFrom, List.range'_succ, ih]

/-- The `Rank` column of `ranked_df` is exactly 1..N in display order,
whatever list the sort returned. -/
lemma ranked_regions_ranks (sorted : List ScoredRegion) :
    ((ranked_regions sorted).map fun p => p.1) = List.range' 1 sorted.length := by
  unfold ranked_regions
  rw [List.map_map]
  have h1 : ((fun p : ℕ × String × ℚ => p.1) ∘
      (fun p : ℕ × ScoredRegion =>
        (p.1 + 1, p.2.Region, p.2.Solar_Site_Suitability_Score))) =
      fun p : ℕ × ScoredRegion => p.1 + 1 := rfl
  rw [h1]
  simpa [List.enum] using enumFrom_map_fst_add_one sorted 0

/-- The (Region, Score) pairs of `ranked_df` are exactly those of the sorted
rows, in display order. -/
lemma ranked_regions_pairs (sorted : List ScoredRegion) :
    ((ranked_regions sorted).map fun p => p.2) =
      sorted.map fun row => (row.Region, row.Solar_Site_Suitability_Score) := by
  unfold ranked_regions
  rw [List.map_map]
  have h1 : ((fun p : ℕ × String × ℚ => p.2) ∘
      (fun p : ℕ × ScoredRegion =>
        (p.1 + 1, p.2.Region, p.2.Solar_Site_Suitability_Score))) =
      (fun row : ScoredRegion =>
        (row.Region, row.Solar_Site_Suitability_Score)) ∘ Prod.snd := rfl
  rw [h1, ← List.map_map, List.enum_map_snd]

/-- Scores are non-increasing along the displayed ranking. -/
lemma ranked_regions_scores_pairwise {sorted : List ScoredRegion}
    (hpair : sorted.Pairwise (fun a b =>
      b.Solar_Site_Suitability_Score ≤ a.Solar_Site_Suitability_Score)) :
    (ranked_regions sorted).Pairwise fun a b => b.2.2 ≤ a.2.2 := by
  have h0 : ((sorted.enum.map Prod.snd).Pairwise fun a b =>
      b.Solar_Site_Suitability_Score ≤ a.Solar_Site_Suitability_Score) := by
    rw [List.enum_map_snd]
    exact hpair
  exact List.pairwise_map.mpr (List.pairwise_map.mp h0)

/-- Claim C7 amended: for every batch the scorer accepts and every list that
line 108's sort (pandas default `kind='quicksort'`, an unstable sort) is
permitted to return, the ranked output carries as `Rank` exactly 1..N in
display order (rank 1 first), lists exactly the sorted rows' (Region, Score)
pairs, those pairs are a permutation of the scored batch's pairs, and the
scores are non-increasing along the ranks.  The stable tie-break the original
claim asserts is not part of the sort's contract and is not guaranteed. -/
theorem claim_C7_ranking (df : List RegionMetrics) (out sorted : List ScoredRegion)
    (h : create_solar_site_suitability_score df = .ok out)
    (hs : SortValuesDescOutput out sorted) :
    ((ranked_regions sorted).map fun p => p.1) = List.range' 1 out.length
    ∧ ((ranked_regions sorted).map fun p => p.2) =
        (sorted.map fun row => (row.Region, row.Solar_Site_Suitability_Score))
    ∧ List.Perm
        (sorted.map fun row => (row.Region, row.Solar_Site_Suitability_Score))
        (out.map fun row => (row.Region, row.Solar_Site_Suitability_Score))
    ∧ (ranked_regions sorted).Pairwise fun a b => b.2.2 ≤ a.2.2 := by
  obtain ⟨-, -⟩ := create_eq_ok_iff.mp h
  obtain ⟨hperm, hpair⟩ := hs
  refine ⟨?_, ranked_regions_pairs sorted,
    hperm.map fun row => (row.Region, row.Solar_Site_Suitability_Score),
    ranked_regions_scores_pairwise hpair⟩
  rw [ranked_regions_ranks sorted, hperm.length_eq]

/-- Witness for the amended C7 at the spec's scenario batch, with the sort
returning the strictly descending order B, C, A. -/
theorem claim_C7_witness :
    ((ranked_regions [scoreRow batchABC regionB, scoreRow batchABC regionC,
          scoreRow batchABC regionA]).map fun p => p.1) =
        List.range' 1 (batchABC.map (scoreRow batchABC)).length
    ∧ ((ranked_regions [scoreRow batchABC regionB, scoreRow batchABC regionC,
          scoreRow batchABC regionA]).map fun p => p.2) =
        ([scoreRow batchABC regionB, scoreRow batchABC regionC,
            scoreRow batchABC regionA].map
          fun row => (row.Region, row.Solar_Site_Suitability_Score))
    ∧ List.Perm
        ([scoreRow batchABC regionB, scoreRow batchABC regionC,
            scoreRow batchABC regionA].map
          fun row => (row.Region, row.Solar_Site_Suitability_Score))
        ((batchABC.map (scoreRow batchABC)).map
          fun row => (row.Region, row.Solar_Site_Suitability_Score))
    ∧ (ranked_regions [scoreRow batchABC regionB, scoreRow batchABC regionC,
          scoreRow batchABC regionA]).Pairwise fun a b => b.2.2 ≤ a.2.2 :=
  claim_C7_ranking batchABC (batchABC.map (scoreRow batchABC))
    [scoreRow batchABC regionB, scoreRow batchABC regionC, scoreRow batchABC regionA]
    rfl
    ⟨@List.perm_append_comm _
        [scoreRow batchABC regionB, scoreRow batchABC regionC]
        [scoreRow batchABC regionA],
     by
      refine List.pairwise_cons.mpr ⟨?_,
        List.pairwise_cons.mpr ⟨?_, List.pairwise_singleton _ _⟩⟩
      · intro b hb
        rcases List.mem_cons.mp hb with rfl | hb
        · rw [scoreABC_B, scoreABC_C]
          norm_num
        · rw [List.mem_singleton] at hb
          subst hb
          rw [scoreABC_A, scoreABC_B]
          norm_num
      · intro b hb
        rw [List.mem_singleton] at hb
        subst hb
        rw [scoreABC_A, scoreABC_C]
        norm_num⟩

/-- Claim C7's stable-tie-break conjunct is false on the code: line 108 sorts
with pandas' default `kind='quicksort'`, an unstable sort, so on the
duplicate-metrics batch — both of whose rows receive the same score — the sort
is permitted to return the two equal-score rows in the reverse of their
original batch order, and that permitted output differs from the original
order (the rows carry different `Region` identifiers). -/
theorem claim_C7_counterexample :
    (scoreRow batchFG regionF).Solar_Site_Suitability_Score =
        (scoreRow batchFG regionG).Solar_Site_Suitability_Score
    ∧ SortValuesDescOutput (batchFG.map (scoreRow batchFG))
        [scoreRow batchFG regionG, scoreRow batchFG regionF]
    ∧ [scoreRow batchFG regionG, scoreRow batchFG regionF] ≠
        batchFG.map (scoreRow batchFG) := by
  obtain ⟨hF, hG⟩ := scoreFG_eq
  refine ⟨by rw [hF, hG], ⟨?_, ?_⟩, ?_⟩
  · exact List.Perm.swap (scoreRow batchFG regionF) (scoreRow batchFG regionG) []
  · refine List.pairwise_cons.mpr ⟨?_, List.pairwise_singleton _ _⟩
    intro b hb
    rw [List.mem_singleton] at hb
    subst hb
    rw [hF, hG]
  · intro hcontra
    injection hcontra with h1 h2
    have h3 := congrArg (fun s : ScoredRegion => s.Region) h1
    simp [scoreRow, regionF, regionG] at h3

/-- Witness for C10 at the scenario batch. -/
theorem claim_C10_witness :
    (batchABC.map (scoreRow batchABC)).map (fun row => row.toRegionMetrics) = batchABC :=
  claim_C10_input_rows_preserved batchABC (batchABC.map (scoreRow batchABC)) rfl

end SolarDashboard
